import Mathlib

/-!
Shallow embedding of the Interview Practice Agent repository
(`app/interview_agent.py` and `app/main.py`).

The external Groq text-generation capability is modelled as an oracle
(`Gateway`): a function from the exact chat-message list and temperature
(in tenths, mirroring the literal floats 0.7 / 0.4 passed in the source)
to `Option String`, where `none` models the API call raising an exception
and `some s` models a reply whose message content is `s`.

Python semantics that matter here are made explicit:
- `InterviewState` and the history list are mutated in place by
  `orchestrator_step`; when a gateway call raises, the mutations already
  performed persist in the caller's objects.  The embedding therefore
  returns the (possibly partially updated) state and history together
  with an `Except` carrying the raised error.
- `state.qa_pairs[-1]` on an empty list raises `IndexError`, modelled by
  `PyErr.indexError`.
-/

/-- Errors a step can raise: a failed generation-API call (any exception
out of `chat_with_groq`) or an `IndexError` from `qa_pairs[-1]`. -/
inductive PyErr where
  | genFailure
  | indexError
deriving DecidableEq, Repr

/-- One chat message, `{"role": ..., "content": ...}` in the source. -/
structure Msg where
  role : String
  content : String
deriving DecidableEq, Repr

/-- Oracle for the external Groq completion call: given the message list
and the temperature (tenths), either fail (`none`) or return the raw
message content. -/
structure Gateway where
  complete : List Msg → Nat → Option String

/-- One `{question, answer}` entry of `state.qa_pairs`. -/
structure QA where
  question : String
  answer : String
deriving DecidableEq, Repr

/-- `InterviewState` dataclass from `app/interview_agent.py`. -/
structure InterviewState where
  role : String
  max_questions : Nat
  main_questions_asked : Nat
  qa_pairs : List QA
deriving DecidableEq, Repr

/-- `InterviewState(role=role, max_questions=max_questions)`: the
dataclass defaults set `main_questions_asked = 0` and `qa_pairs = []`. -/
def init_state (role : String) (max_questions : Nat) : InterviewState :=
  { role := role, max_questions := max_questions,
    main_questions_asked := 0, qa_pairs := [] }

/-- The whitespace characters Python's `str.strip()` removes (ASCII
range; the repository's strings are ASCII). -/
def py_is_space (c : Char) : Bool :=
  c == ' ' || c == '\t' || c == '\n' || c == '\r' || c == '\x0b' || c == '\x0c'

/-- Python `str.strip()`: drop leading and trailing whitespace. -/
def py_strip (s : String) : String :=
  ⟨((s.data.dropWhile py_is_space).reverse.dropWhile py_is_space).reverse⟩

/-- Python `str.lower()` on one character (ASCII case mapping). -/
def py_char_lower (c : Char) : Char :=
  if 65 ≤ c.toNat && c.toNat ≤ 90 then Char.ofNat (c.toNat + 32) else c

/-- Python `str.lower()` (ASCII case mapping). -/
def py_lower (s : String) : String :=
  ⟨s.data.map py_char_lower⟩

/-- `chat_with_groq`: calls the completion API and strips the content;
any API exception is surfaced as `PyErr.genFailure`. -/
def chat_with_groq (gw : Gateway) (messages : List Msg) (temperature10 : Nat) :
    Except PyErr String :=
  match gw.complete messages temperature10 with
  | none => .error .genFailure
  | some s => .ok (py_strip s)

/-- `TIMEOUT_SYSTEM_PROMPT` (triple-quoted literal, leading and trailing
newline included). -/
def TIMEOUT_SYSTEM_PROMPT : String :=
  "\nYou are a Silence Recovery Agent.\n\n" ++
  "You detect when the candidate:\n" ++
  "- does not answer for a while,\n" ++
  "- gives an empty or unhelpful answer,\n" ++
  "- is confused or stuck,\n" ++
  "- hesitates or goes silent.\n\n" ++
  "Your job:\n" ++
  "- Politely re-engage them.\n" ++
  "- Ask if they need the question repeated.\n" ++
  "- Offer help like: hints, clarification, or a simpler phrasing.\n" ++
  "- Keep responses short, friendly, and supportive.\n" ++
  "- NEVER pressure the candidate.\n" ++
  "- Example responses:\n" ++
  "  - \"Are you still there? Take your time — would you like me to repeat the question?\"\n" ++
  "  - \"I didn\x27t catch that. Would you like me to repeat or give a hint?\"\n" ++
  "  - \"No worries, take a moment. Should I repeat the question?\"\n" ++
  "Return a single short sentence or question suitable to be spoken aloud.\n"

/-- The user message `timeout_agent` sends alongside the system prompt. -/
def TIMEOUT_USER_MSG : String :=
  "The candidate has been silent or unresponsive. Provide a friendly one-line prompt to re-engage them."

/-- The fixed fallback sentence returned when the LLM call fails. -/
def TIMEOUT_FALLBACK : String :=
  "Are you still there? Take your time — would you like me to repeat the question?"

/-- The exact message list `timeout_agent` builds. -/
def timeout_messages : List Msg :=
  [⟨"system", TIMEOUT_SYSTEM_PROMPT⟩, ⟨"user", TIMEOUT_USER_MSG⟩]

/-- `timeout_agent`: re-engagement prompt via the gateway, with a
try/except substituting the fixed fallback sentence on any failure. -/
def timeout_agent (gw : Gateway) : String :=
  match chat_with_groq gw timeout_messages 7 with
  | .ok s => s
  | .error _ => TIMEOUT_FALLBACK

/-! `INTERVIEWER_SYSTEM_PROMPT.format(role=role)`: the template has two
`{role}` placeholders; the formatted string is embedded as the literal
text pieces with the role spliced in at both places. -/

def INTERVIEWER_PROMPT_PRE : String :=
  "\nYou are an Interviewer Agent for the role: "

def INTERVIEWER_PROMPT_MID1 : String :=
  ".\n\nINTERVIEW FLOW (STRICT):\n\n" ++
  "1. FIRST QUESTION — ALWAYS:\n   "

/-- The quoted mandatory first question inside the interviewer prompt. -/
def FIRST_QUESTION_RULE : String :=
  "\"Can you introduce yourself?\""

def INTERVIEWER_PROMPT_MID2 : String :=
  "\n\n   Do NOT use any other opening question.\n" ++
  "   Do NOT randomize.\n" ++
  "   This must be the very first question of every interview.\n\n" ++
  "2. AFTER INTRODUCTION:\n" ++
  "   Based on the candidate’s introduction, ask relevant follow-up questions about:\n" ++
  "   - Their skills\n" ++
  "   - Their education background\n" ++
  "   - Their experience (internships, projects)\n" ++
  "   - Technologies they mentioned\n" ++
  "   - Strengths relevant to the role\n\n" ++
  "   Ask 1–3 follow-ups depending on how detailed their introduction is.\n" ++
  "   Do NOT be repetitive.\n\n" ++
  "3. MAIN INTERVIEW — ONLY AFTER INTRODUCTION FOLLOW-UPS:\n" ++
  "   Transition naturally into deeper questions such as:\n" ++
  "   - Role-specific technical skills\n" ++
  "   - Projects related to the role\n" ++
  "   - System design (if Software Engineer)\n" ++
  "   - Problem-solving and coding practices\n" ++
  "   - Behavioral questions (STAR)\n" ++
  "   - Scenario questions\n\n" ++
  "4. RULES:\n" ++
  "   - Ask only ONE question at a time.\n" ++
  "   - Do NOT repeat any previous question.\n" ++
  "   - Do NOT paraphrase the same question in different words.\n" ++
  "   - Do NOT ask introduction again after the first time.\n" ++
  "   - Keep questions relevant to the candidate’s background.\n" ++
  "   - Make questions aligned with the role: "

def INTERVIEWER_PROMPT_END : String := ".\n"

/-- `INTERVIEWER_SYSTEM_PROMPT.format(role=role)`. -/
def interviewer_system_prompt (role : String) : String :=
  INTERVIEWER_PROMPT_PRE ++ role ++ INTERVIEWER_PROMPT_MID1 ++
  FIRST_QUESTION_RULE ++ INTERVIEWER_PROMPT_MID2 ++ role ++
  INTERVIEWER_PROMPT_END

/-- The message list `interviewer_agent` sends: formatted system prompt
followed by the full history. -/
def interviewer_messages (state : InterviewState) (history : List Msg) : List Msg :=
  ⟨"system", interviewer_system_prompt state.role⟩ :: history

/-- `interviewer_agent`: returns the next MAIN interview question. -/
def interviewer_agent (gw : Gateway) (state : InterviewState)
    (history : List Msg) : Except PyErr String :=
  chat_with_groq gw (interviewer_messages state history) 7

/-- `FOLLOWUP_SYSTEM_PROMPT` (triple-quoted literal). -/
def FOLLOWUP_SYSTEM_PROMPT : String :=
  "\nYou are a Follow-up Agent for a job interview.\n\n" ++
  "You receive:\n" ++
  "- The last main question.\n" ++
  "- The candidate’s answer.\n" ++
  "- A list of ALL previous questions asked (main + follow-ups).\n\n" ++
  "Your job:\n" ++
  "- Decide if a NEW follow-up is needed to probe deeper.\n" ++
  "- If needed, generate ONE specific follow-up question.\n\n" ++
  "IMPORTANT RULES:\n\n" ++
  "1. DEPTH:\n" ++
  "   - If the answer is incomplete, vague, or off-topic → ask a follow-up.\n" ++
  "   - You may ask multiple follow-ups (1 at a time).\n\n" ++
  "2. NO REPETITION:\n" ++
  "   - DO NOT repeat or rephrase any previous question.\n" ++
  "   - Compare your new question against all previous questions; \n" ++
  "     if it is similar → DO NOT ask it.\n" ++
  "   - If ANY similar question exists → output EXACTLY: NONE\n\n" ++
  "3. EDGE-CASE HANDLING:\n" ++
  "   - If the answer is irrelevant or does not address the question, \n" ++
  "     ask a clarifying follow-up, BUT still follow the no-duplicate rule.\n\n" ++
  "4. USER REFUSAL:\n" ++
  "   - If user clearly says: “I don’t know”, “move on”, “skip”, “no experience”, \n" ++
  "     “next question”, or refuses → output EXACTLY: NONE\n\n" ++
  "5. OUTPUT FORMAT:\n" ++
  "   - If NO follow-up is needed → reply EXACTLY: NONE\n" ++
  "   - If a follow-up is needed → output ONLY the follow-up question\n" ++
  "     (no explanation, no comments)\n"

/-- Python `repr` of a list of plain strings, as interpolated by the
f-string `{previous_questions}` (single-quoted items, comma separated;
items here contain no characters Python would escape). -/
def py_str_list_repr (qs : List String) : String :=
  "[" ++ String.intercalate ", " (qs.map (fun q => "\x27" ++ q ++ "\x27")) ++ "]"

/-- The f-string user content built inside `followup_agent`. -/
def followup_user_content (last_question last_answer : String)
    (previous_questions : List String) : String :=
  "\nMain Question: " ++ last_question ++
  "\nCandidate Answer: " ++ last_answer ++
  "\n\nAll Previous Questions:\n" ++ py_str_list_repr previous_questions ++
  "\nDecide if a follow-up question is needed."

/-- The exact message list `followup_agent` sends. -/
def followup_messages (last_question last_answer : String)
    (previous_questions : List String) : List Msg :=
  [⟨"system", FOLLOWUP_SYSTEM_PROMPT⟩,
   ⟨"user", followup_user_content last_question last_answer previous_questions⟩]

/-- `followup_agent`: returns `"NONE"` (no follow-up) or a follow-up
question; the reply is stripped once more on return. -/
def followup_agent (gw : Gateway) (last_question last_answer : String)
    (previous_questions : List String) : Except PyErr String :=
  (chat_with_groq gw (followup_messages last_question last_answer previous_questions) 4).map
    py_strip

/-- The synthetic directive appended to history before the first question. -/
def START_DIRECTIVE : String := "Start the interview and ask the first question."

/-- `state.qa_pairs[-1]["answer"] = user_answer`: replace the answer of the
last entry, leaving everything else in place. -/
def set_last_answer : List QA → String → List QA
  | [], _ => []
  | [qa], a => [{ qa with answer := a }]
  | qa :: qb :: rest, a => qa :: set_last_answer (qb :: rest) a

/-- `orchestrator_step` from `app/interview_agent.py`.

Returns the state and history as they stand when the function returns or
raises (CPython mutates both in place, so on an exception the caller's
objects keep every mutation performed before the raising call), together
with `.ok (next_message, is_finished)` or `.error e` for a raised
exception. -/
def orchestrator_step (gw : Gateway) (state : InterviewState)
    (history : List Msg) (user_answer : Option String) :
    InterviewState × List Msg × Except PyErr (Option String × Bool) :=
  match user_answer with
  | none =>
    if state.main_questions_asked == 0 then
      -- 1) first step: ask first main question
      let history1 := history ++ [⟨"user", START_DIRECTIVE⟩]
      match interviewer_agent gw state history1 with
      | .error e => (state, history1, .error e)
      | .ok question =>
        let history2 := history1 ++ [⟨"assistant", question⟩]
        let state1 := { state with
          main_questions_asked := state.main_questions_asked + 1,
          qa_pairs := state.qa_pairs ++ [⟨question, ""⟩] }
        (state1, history2, .ok (some question, false))
    else
      -- fail-safe branch at the bottom of the function
      (state, history, .ok (none, true))
  | some ans =>
    -- 2) we just received an answer from the user
    match state.qa_pairs.getLast? with
    | none => (state, history, .error .indexError)
    | some last =>
      let qa1 := set_last_answer state.qa_pairs ans
      let state1 := { state with qa_pairs := qa1 }
      let history1 := history ++ [⟨"user", ans⟩]
      let all_questions := (qa1.filter (fun qa => qa.question != "")).map QA.question
      -- 2.1) ask the follow-up agent
      match followup_agent gw last.question ans all_questions with
      | .error e => (state1, history1, .error e)
      | .ok followup =>
        if followup != "NONE" then
          let history2 := history1 ++ [⟨"assistant", followup⟩]
          let state2 := { state1 with qa_pairs := state1.qa_pairs ++ [⟨followup, ""⟩] }
          (state2, history2, .ok (some followup, false))
        -- 2.2) no follow-up: finish when the budget is used up
        else if state1.main_questions_asked ≥ state1.max_questions then
          (state1, history1, .ok (none, true))
        else
          -- 2.3) ask the next main question
          match interviewer_agent gw state1 history1 with
          | .error e => (state1, history1, .error e)
          | .ok question =>
            let history2 := history1 ++ [⟨"assistant", question⟩]
            let state2 := { state1 with
              main_questions_asked := state1.main_questions_asked + 1,
              qa_pairs := state1.qa_pairs ++ [⟨question, ""⟩] }
            (state2, history2, .ok (some question, false))

/-- `HESITATION_PHRASES` (a Python set; membership is all that is used). -/
def HESITATION_PHRASES : List String :=
  ["", " ", "...", ".", "..",
   "uh", "uhh", "um", "umm", "hmm", "huh", "mm",
   "idk", "i don\x27t know", "i dont know", "dont know", "no idea",
   "no", "nah", "nope", "skip", "next", "none"]

/-- `POSITIVE_SHORTS`. -/
def POSITIVE_SHORTS : List String :=
  ["yes", "y", "ok", "okay", "sure", "fine", "good"]

/-- ASCII `[a-zA-Z0-9]`, the alphanumeric class of the regex in
`is_hesitation`. -/
def is_ascii_alnum (c : Char) : Bool :=
  (97 ≤ c.toNat && c.toNat ≤ 122) ||
  (65 ≤ c.toNat && c.toNat ≤ 90) ||
  (48 ≤ c.toNat && c.toNat ≤ 57)

/-- The regex class `\s`: space, tab, newline, carriage return, vertical
tab, form feed. -/
def is_regex_space (c : Char) : Bool :=
  c == ' ' || c == '\t' || c == '\n' || c == '\r' || c == '\x0b' || c == '\x0c'

/-- `re.fullmatch(r'[^a-zA-Z0-9\s]+', text)`: nonempty and every character
outside both classes. -/
def symbol_only (text : String) : Bool :=
  text.length != 0 && text.toList.all (fun c => !(is_ascii_alnum c || is_regex_space c))

/-- The body of `is_hesitation` after `text = answer.strip().lower()`. -/
def hesitant_text (text : String) : Bool :=
  if text == "" then true
  else if HESITATION_PHRASES.contains text then true
  else if text.length == 1 && !(text == "y" || text == "n") then true
  else if decide (text.length ≤ 2) && !(POSITIVE_SHORTS.contains text) then true
  else if decide (text.length ≤ 4) && symbol_only text then true
  else false

/-- `is_hesitation`: detects hesitation / unhelpful answers; `None` is
maximally hesitant. -/
def is_hesitation (answer : Option String) : Bool :=
  match answer with
  | none => true
  | some a => hesitant_text (py_lower (py_strip a))

/-- The three-way classification the console loop implements for a raw
utterance (lines 412 and 417 of `app/interview_agent.py`): short
affirmatives are accepted first, then `is_hesitation` decides between
Hesitant and Substantive. -/
inductive Classification where
  | Hesitant
  | PositiveShort
  | Substantive
deriving DecidableEq, Repr

/-- Classifier induced by the console loop's acceptance order. -/
def classify (raw : Option String) : Classification :=
  match raw with
  | none => .Hesitant
  | some s =>
    if POSITIVE_SHORTS.contains (py_lower (py_strip s)) then .PositiveShort
    else if is_hesitation (some s) then .Hesitant
    else .Substantive

/-- `supportive_repeat_text` (Style B — Supportive Repeat). -/
def supportive_repeat_text (original_question : String) : String :=
  "No problem, let me repeat the question so you can answer comfortably:\n" ++
  original_question

/-- The explicit exit words checked by the console loop. -/
def EXIT_WORDS : List String := ["exit", "quit", "stop"]

/-- The hard-coded skip announcement printed at the third hesitation. -/
def SKIP_MSG : String := "No worries, let\x27s move to the next question."

/-- The fixed skip marker recorded as the answer at the third hesitation. -/
def SKIP_MARKER : String := "No response / skipped"

/-- Result of one run of the inner answer-collection loop of
`run_console_interview` over a finite stream of raw inputs. -/
structure CollectOutcome where
  exited : Bool
  captured : Option String
  emitted : List String
  history : List Msg
  count : Nat
deriving DecidableEq, Repr

/-- The inner `while True` answer-collection loop of
`run_console_interview`, for one pending question: consumes raw console
inputs until an answer is captured, the user exits, or the input stream
runs out (`captured = none`, `exited = false`: the loop would block on
`input()`).  `emitted` collects the interviewer messages printed inside
the loop, `history` threads the stage-2 append, `count` is the
per-question `hesitation_count`. -/
def collect_answer (gw : Gateway) (current_question : Option String)
    (history : List Msg) (count : Nat) : List String → CollectOutcome
  | [] => ⟨false, none, [], history, count⟩
  | u :: rest =>
    let t := py_lower (py_strip u)
    if EXIT_WORDS.contains t then
      ⟨true, none, [], history, count⟩
    else if POSITIVE_SHORTS.contains t then
      ⟨false, some (py_strip u), [], history, count⟩
    else if is_hesitation (some u) then
      let c := count + 1
      if c == 1 then
        let m := timeout_agent gw
        let o := collect_answer gw current_question history c rest
        { o with emitted := m :: o.emitted }
      else if c == 2 then
        let m := supportive_repeat_text
          (match current_question with
           | none => "Can you elaborate?"
           | some q => if q == "" then "Can you elaborate?" else q)
        let o := collect_answer gw current_question
          (history ++ [⟨"assistant", m⟩]) c rest
        { o with emitted := m :: o.emitted }
      else
        ⟨false, some SKIP_MARKER, [SKIP_MSG], history, c⟩
    else
      ⟨false, some (py_strip u), [], history, count⟩

/-- One stored session of `app/main.py`:
`{"state": ..., "history": ..., "finished": ...}`. -/
structure Session where
  state : InterviewState
  history : List Msg
  finished : Bool
deriving DecidableEq, Repr

/-- The `/answer` endpoint body after the session lookup.  If the stored
`finished` flag is set it returns `(None, True)` without touching the
session.  Otherwise it runs `orchestrator_step`; on success the session
is updated and `(next_message, finished)` returned.  If the step raises,
FastAPI reports the error, but the session's state and history objects —
mutated in place by the step — keep the partial mutations, while the
stored `finished` flag keeps its old value. -/
def answer_endpoint (gw : Gateway) (sd : Session) (ans : String) :
    Session × Except PyErr (Option String × Bool) :=
  if sd.finished then
    (sd, .ok (none, true))
  else
    match orchestrator_step gw sd.state sd.history (some ans) with
    | (st1, h1, .ok (msg, fin)) => (⟨st1, h1, fin⟩, .ok (msg, fin))
    | (st1, h1, .error e) => (⟨st1, h1, sd.finished⟩, .error e)

/-! ### Helper definitions and lemmas -/

/-- A gateway whose API call always fails. -/
def gw_fail : Gateway := ⟨fun _ _ => none⟩

/-- A gateway that always replies with the same content. -/
def gw_const (s : String) : Gateway := ⟨fun _ _ => some s⟩

/-- A gateway that answers the follow-up decision (a two-message chat)
with the sentinel and every other call with a fresh question. -/
def gw_sentinel : Gateway :=
  ⟨fun msgs _ => if msgs.length == 2 then some "NONE" else some "Q2"⟩

lemma set_last_answer_length (l : List QA) (a : String) :
    (set_last_answer l a).length = l.length := by
  induction l with
  | nil => rfl
  | cons x xs ih =>
    cases xs with
    | nil => rfl
    | cons y ys => simpa [set_last_answer] using ih

lemma hesitant_text_not_positive (t : String) (h : hesitant_text t = true) :
    POSITIVE_SHORTS.contains t = false := by
  cases hps : POSITIVE_SHORTS.contains t with
  | false => rfl
  | true =>
    exfalso
    have hm : t = "yes" ∨ t = "y" ∨ t = "ok" ∨ t = "okay" ∨ t = "sure" ∨
        t = "fine" ∨ t = "good" := by simpa [POSITIVE_SHORTS] using hps
    rcases hm with h1 | h1 | h1 | h1 | h1 | h1 | h1 <;> subst h1 <;>
      exact absurd h (by decide)

lemma hesitant_text_not_exit (t : String) (h : hesitant_text t = true) :
    EXIT_WORDS.contains t = false := by
  cases hex : EXIT_WORDS.contains t with
  | false => rfl
  | true =>
    exfalso
    have hm : t = "exit" ∨ t = "quit" ∨ t = "stop" := by
      simpa [EXIT_WORDS] using hex
    rcases hm with h1 | h1 | h1 <;> subst h1 <;> exact absurd h (by decide)

/-! ### Claims -/

/-- C4: the hesitation classifier is a total function of its input string
(by construction in this embedding), and on the concrete inputs of the
claim it returns: absent input → Hesitant, `""` → Hesitant (likewise
whitespace-only), `"um"` → Hesitant, `"yes"` → PositiveShort, and
`"I built a caching layer for a payments service"` → Substantive. -/
theorem C4_classifier_concrete :
    classify none = .Hesitant ∧
    classify (some "") = .Hesitant ∧
    classify (some "   ") = .Hesitant ∧
    classify (some "um") = .Hesitant ∧
    classify (some "yes") = .PositiveShort ∧
    classify (some "I built a caching layer for a payments service") = .Substantive := by
  decide

/-- C10: once `main_questions_asked > 0`, a step with `user_answer = None`
falls through to the fail-safe return: no message, `finished = True`,
state and history unchanged — and, the conclusion holding for every
gateway, no generation call is consulted. -/
theorem C10_failsafe_step (gw : Gateway) (st : InterviewState) (hist : List Msg)
    (h : 0 < st.main_questions_asked) :
    orchestrator_step gw st hist none = (st, hist, .ok (none, true)) := by
  have hne : (st.main_questions_asked == 0) = false := by simp; omega
  simp [orchestrator_step, hne]

/-- Witness for C10 at a concrete session state. -/
theorem C10_failsafe_step_witness :
    0 < (⟨"Software Engineer", 5, 1, [⟨"Q1", ""⟩]⟩ : InterviewState).main_questions_asked ∧
    orchestrator_step (gw_const "Hello there")
        ⟨"Software Engineer", 5, 1, [⟨"Q1", ""⟩]⟩ [⟨"assistant", "Q1"⟩] none =
      (⟨"Software Engineer", 5, 1, [⟨"Q1", ""⟩]⟩, [⟨"assistant", "Q1"⟩], .ok (none, true)) :=
  ⟨by decide, C10_failsafe_step (gw_const "Hello there") _ _ (by decide)⟩

/-- C2: the `/answer` endpoint on a session whose stored `finished` flag
is set returns `(None, True)` and returns the session record unchanged —
`qa_pairs`, `main_questions_asked` and `history` are untouched. -/
theorem C2_answer_finished_idempotent (gw : Gateway) (sd : Session) (ans : String)
    (h : sd.finished = true) :
    answer_endpoint gw sd ans = (sd, .ok (none, true)) := by
  simp [answer_endpoint, h]

/-- Witness for C2 on a concrete finished session. -/
theorem C2_answer_finished_idempotent_witness :
    (⟨⟨"SE", 2, 2, [⟨"Q1", "a1"⟩, ⟨"Q2", "a2"⟩]⟩, [⟨"assistant", "Q2"⟩], true⟩ : Session).finished = true ∧
    answer_endpoint gw_fail
        ⟨⟨"SE", 2, 2, [⟨"Q1", "a1"⟩, ⟨"Q2", "a2"⟩]⟩, [⟨"assistant", "Q2"⟩], true⟩ "late answer" =
      (⟨⟨"SE", 2, 2, [⟨"Q1", "a1"⟩, ⟨"Q2", "a2"⟩]⟩, [⟨"assistant", "Q2"⟩], true⟩, .ok (none, true)) :=
  ⟨rfl, C2_answer_finished_idempotent gw_fail _ _ rfl⟩

/-- C9: `timeout_agent` recovers a failed generation call with the fixed
fallback sentence (the failure is never surfaced: its return type is a
plain string), and on success returns the gateway's reply as delivered
by `chat_with_groq` (stripped). -/
theorem C9_reengagement_fallback (gw : Gateway) :
    (gw.complete timeout_messages 7 = none → timeout_agent gw = TIMEOUT_FALLBACK) ∧
    (∀ s, gw.complete timeout_messages 7 = some s → timeout_agent gw = py_strip s) := by
  constructor
  · intro h; simp [timeout_agent, chat_with_groq, h]
  · intro s h; simp [timeout_agent, chat_with_groq, h]

/-- Witness for C9: a failing gateway yields the fallback sentence, a
succeeding one yields its own reply. -/
theorem C9_reengagement_fallback_witness :
    gw_fail.complete timeout_messages 7 = none ∧
    timeout_agent gw_fail = TIMEOUT_FALLBACK ∧
    (gw_const "Sure — take your time.").complete timeout_messages 7 = some "Sure — take your time." ∧
    timeout_agent (gw_const "Sure — take your time.") = "Sure — take your time." := by
  refine ⟨rfl, (C9_reengagement_fallback gw_fail).1 rfl, rfl, ?_⟩
  have h := (C9_reengagement_fallback (gw_const "Sure — take your time.")).2
    "Sure — take your time." rfl
  rw [h]; decide

/-- C3 counterexample: with a session holding one pending question, a
failing gateway and the answer `"my answer"`, the step raises — yet the
answer is already recorded in the last `qa_pairs` entry and appended to
`history`, so `qa_pairs` and `history` are NOT left as they were. -/
theorem C3_cex_partial_mutation :
    orchestrator_step gw_fail ⟨"Software Engineer", 5, 1, [⟨"Q1", ""⟩]⟩
        [⟨"assistant", "Q1"⟩] (some "my answer") =
      (⟨"Software Engineer", 5, 1, [⟨"Q1", "my answer"⟩]⟩,
       [⟨"assistant", "Q1"⟩, ⟨"user", "my answer"⟩], .error .genFailure) ∧
    ([⟨"Q1", "my answer"⟩] : List QA) ≠ [⟨"Q1", ""⟩] ∧
    ([⟨"assistant", "Q1"⟩, ⟨"user", "my answer"⟩] : List Msg) ≠ [⟨"assistant", "Q1"⟩] := by
  refine ⟨?_, by decide, by decide⟩
  rfl

/-- C3 amended: when a generation call fails during a step, the
transition is not all-or-nothing.  What does hold: `main_questions_asked`,
`qa_pairs.length`, `max_questions` and `role` are unchanged, but the
mutations performed before the failing call persist — for an answer step
failing in generation, the answer is already written into the last
`qa_pairs` entry and appended to `history`; for a failing first-question
step, the start directive is already appended to `history`. -/
theorem C3_failure_keeps_prior_mutations (gw : Gateway) (st : InterviewState)
    (hist : List Msg) (ua : Option String) (st1 : InterviewState)
    (h1 : List Msg) (e : PyErr)
    (hstep : orchestrator_step gw st hist ua = (st1, h1, .error e)) :
    st1.main_questions_asked = st.main_questions_asked ∧
    st1.qa_pairs.length = st.qa_pairs.length ∧
    st1.max_questions = st.max_questions ∧
    st1.role = st.role ∧
    (∀ ans, ua = some ans → e = .genFailure →
      st1.qa_pairs = set_last_answer st.qa_pairs ans ∧
      h1 = hist ++ [⟨"user", ans⟩]) ∧
    (ua = none → st1 = st ∧ h1 = hist ++ [⟨"user", START_DIRECTIVE⟩]) := by
  rcases ua with _ | ans
  · -- first-question step
    by_cases h0 : st.main_questions_asked = 0
    · have hbeq : (st.main_questions_asked == 0) = true := by simpa using h0
      cases hint : interviewer_agent gw st (hist ++ [⟨"user", START_DIRECTIVE⟩]) with
      | error e2 =>
        have hred : orchestrator_step gw st hist none =
            (st, hist ++ [⟨"user", START_DIRECTIVE⟩], .error e2) := by
          simp [orchestrator_step, hbeq, hint]
        rw [hred] at hstep
        have hst1 : st1 = st := (congrArg Prod.fst hstep).symm
        have hh1 : h1 = hist ++ [⟨"user", START_DIRECTIVE⟩] :=
          (congrArg (fun p => p.2.1) hstep).symm
        subst hst1; subst hh1
        refine ⟨rfl, rfl, rfl, rfl, ?_, fun _ => ⟨rfl, rfl⟩⟩
        intro a ha hgen
        exact absurd ha (by simp)
      | ok q =>
        have hred : orchestrator_step gw st hist none =
            ({ st with main_questions_asked := st.main_questions_asked + 1,
                       qa_pairs := st.qa_pairs ++ [⟨q, ""⟩] },
             hist ++ [⟨"user", START_DIRECTIVE⟩, ⟨"assistant", q⟩],
             .ok (some q, false)) := by
          simp [orchestrator_step, hbeq, hint]
        rw [hred] at hstep
        exact absurd (congrArg (fun p => p.2.2) hstep) (by simp)
    · have hbeq : (st.main_questions_asked == 0) = false := by simpa using h0
      have hred : orchestrator_step gw st hist none = (st, hist, .ok (none, true)) := by
        simp [orchestrator_step, hbeq]
      rw [hred] at hstep
      exact absurd (congrArg (fun p => p.2.2) hstep) (by simp)
  · -- answer step
    cases hql : st.qa_pairs.getLast? with
    | none =>
      have hred : orchestrator_step gw st hist (some ans) =
          (st, hist, .error .indexError) := by
        simp [orchestrator_step, hql]
      rw [hred] at hstep
      have hst1 : st1 = st := (congrArg Prod.fst hstep).symm
      have hh1 : h1 = hist := (congrArg (fun p => p.2.1) hstep).symm
      have he : e = .indexError := by
        have := congrArg (fun p => p.2.2) hstep
        simpa using this.symm
      subst hst1; subst hh1; subst he
      refine ⟨rfl, rfl, rfl, rfl, ?_, by simp⟩
      intro a ha hgen
      exact absurd hgen (by simp)
    | some last =>
      cases hfa : followup_agent gw last.question ans
          (((set_last_answer st.qa_pairs ans).filter (fun qa => qa.question != "")).map QA.question) with
      | error e2 =>
        have hred : orchestrator_step gw st hist (some ans) =
            ({ st with qa_pairs := set_last_answer st.qa_pairs ans },
             hist ++ [⟨"user", ans⟩], .error e2) := by
          simp [orchestrator_step, hql, hfa]
        rw [hred] at hstep
        have hst1 : st1 = { st with qa_pairs := set_last_answer st.qa_pairs ans } :=
          (congrArg Prod.fst hstep).symm
        have hh1 : h1 = hist ++ [⟨"user", ans⟩] := (congrArg (fun p => p.2.1) hstep).symm
        subst hst1; subst hh1
        refine ⟨rfl, by simp [set_last_answer_length], rfl, rfl, ?_, by simp⟩
        intro a ha hgen
        cases ha
        exact ⟨rfl, rfl⟩
      | ok f =>
        by_cases hnf : f = "NONE"
        · subst hnf
          by_cases hge : st.main_questions_asked ≥ st.max_questions
          · have hred : orchestrator_step gw st hist (some ans) =
                ({ st with qa_pairs := set_last_answer st.qa_pairs ans },
                 hist ++ [⟨"user", ans⟩], .ok (none, true)) := by
              simp [orchestrator_step, hql, hfa, hge]
            rw [hred] at hstep
            exact absurd (congrArg (fun p => p.2.2) hstep) (by simp)
          · cases hint : interviewer_agent gw { st with qa_pairs := set_last_answer st.qa_pairs ans }
                (hist ++ [⟨"user", ans⟩]) with
            | error e2 =>
              have hred : orchestrator_step gw st hist (some ans) =
                  ({ st with qa_pairs := set_last_answer st.qa_pairs ans },
                   hist ++ [⟨"user", ans⟩], .error e2) := by
                simp [orchestrator_step, hql, hfa, hge, hint]
              rw [hred] at hstep
              have hst1 : st1 = { st with qa_pairs := set_last_answer st.qa_pairs ans } :=
                (congrArg Prod.fst hstep).symm
              have hh1 : h1 = hist ++ [⟨"user", ans⟩] := (congrArg (fun p => p.2.1) hstep).symm
              subst hst1; subst hh1
              refine ⟨rfl, by simp [set_last_answer_length], rfl, rfl, ?_, by simp⟩
              intro a ha hgen
              cases ha
              exact ⟨rfl, rfl⟩
            | ok q =>
              have hred : orchestrator_step gw st hist (some ans) =
                  ({ st with main_questions_asked := st.main_questions_asked + 1,
                             qa_pairs := set_last_answer st.qa_pairs ans ++ [⟨q, ""⟩] },
                   hist ++ [⟨"user", ans⟩, ⟨"assistant", q⟩],
                   .ok (some q, false)) := by
                simp [orchestrator_step, hql, hfa, hge, hint]
              rw [hred] at hstep
              exact absurd (congrArg (fun p => p.2.2) hstep) (by simp)
        · have hnfb : (f != "NONE") = true := by simpa using hnf
          have hred : orchestrator_step gw st hist (some ans) =
              ({ st with qa_pairs := set_last_answer st.qa_pairs ans ++ [⟨f, ""⟩] },
               hist ++ [⟨"user", ans⟩, ⟨"assistant", f⟩],
               .ok (some f, false)) := by
            simp [orchestrator_step, hql, hfa, hnfb]
          rw [hred] at hstep
          exact absurd (congrArg (fun p => p.2.2) hstep) (by simp)

/-- Witness for C3 amended, at the counterexample's concrete input. -/
theorem C3_failure_keeps_prior_mutations_witness :
    orchestrator_step gw_fail ⟨"SE", 5, 1, [⟨"Q1", ""⟩]⟩ [⟨"assistant", "Q1"⟩] (some "hi all") =
      (⟨"SE", 5, 1, [⟨"Q1", "hi all"⟩]⟩, [⟨"assistant", "Q1"⟩, ⟨"user", "hi all"⟩],
       .error .genFailure) ∧
    ((⟨"SE", 5, 1, [⟨"Q1", "hi all"⟩]⟩ : InterviewState).main_questions_asked =
        (⟨"SE", 5, 1, [⟨"Q1", ""⟩]⟩ : InterviewState).main_questions_asked ∧
     (⟨"SE", 5, 1, [⟨"Q1", "hi all"⟩]⟩ : InterviewState).qa_pairs.length =
        (⟨"SE", 5, 1, [⟨"Q1", ""⟩]⟩ : InterviewState).qa_pairs.length ∧
     (⟨"SE", 5, 1, [⟨"Q1", "hi all"⟩]⟩ : InterviewState).max_questions =
        (⟨"SE", 5, 1, [⟨"Q1", ""⟩]⟩ : InterviewState).max_questions ∧
     (⟨"SE", 5, 1, [⟨"Q1", "hi all"⟩]⟩ : InterviewState).role =
        (⟨"SE", 5, 1, [⟨"Q1", ""⟩]⟩ : InterviewState).role ∧
     (∀ ans, (some "hi all" : Option String) = some ans → PyErr.genFailure = .genFailure →
       (⟨"SE", 5, 1, [⟨"Q1", "hi all"⟩]⟩ : InterviewState).qa_pairs =
         set_last_answer (⟨"SE", 5, 1, [⟨"Q1", ""⟩]⟩ : InterviewState).qa_pairs ans ∧
       ([⟨"assistant", "Q1"⟩, ⟨"user", "hi all"⟩] : List Msg) =
         [⟨"assistant", "Q1"⟩] ++ [⟨"user", ans⟩]) ∧
     ((some "hi all" : Option String) = none →
       (⟨"SE", 5, 1, [⟨"Q1", "hi all"⟩]⟩ : InterviewState) = ⟨"SE", 5, 1, [⟨"Q1", ""⟩]⟩ ∧
       ([⟨"assistant", "Q1"⟩, ⟨"user", "hi all"⟩] : List Msg) =
         [⟨"assistant", "Q1"⟩] ++ [⟨"user", START_DIRECTIVE⟩])) :=
  ⟨rfl, C3_failure_keeps_prior_mutations gw_fail ⟨"SE", 5, 1, [⟨"Q1", ""⟩]⟩
    [⟨"assistant", "Q1"⟩] (some "hi all") _ _ _ rfl⟩

/-- C7 counterexample: the first question emitted is whatever the
generation gateway returns, not a hard-coded text — a gateway replying
`"Hello there"` makes the first emitted question `"Hello there"`, which
is not the fixed introduction request. -/
theorem C7_cex_first_question_not_fixed :
    (orchestrator_step (gw_const "Hello there") (init_state "Software Engineer" 5) [] none).2.2 =
      .ok (some "Hello there", false) ∧
    (orchestrator_step (gw_const "Backend greetings") (init_state "Backend Engineer" 5) [] none).2.2 =
      .ok (some "Backend greetings", false) ∧
    "Hello there" ≠ "Can you introduce yourself?" := by
  exact ⟨rfl, rfl, by decide⟩

/-- C7 amended: on the first step the orchestrator emits the gateway's
(stripped) reply verbatim as the first question, for every role; the
fixed introduction request is enforced only by instruction — the system
prompt sent with that call hard-codes the rule
`"Can you introduce yourself?"` — not by code. -/
theorem C7_first_question_via_gateway (gw : Gateway) (st : InterviewState)
    (hist : List Msg) (q : String) (h0 : st.main_questions_asked = 0)
    (hq : gw.complete (interviewer_messages st (hist ++ [⟨"user", START_DIRECTIVE⟩])) 7 = some q) :
    orchestrator_step gw st hist none =
      ({ st with main_questions_asked := st.main_questions_asked + 1,
                 qa_pairs := st.qa_pairs ++ [⟨py_strip q, ""⟩] },
       hist ++ [⟨"user", START_DIRECTIVE⟩, ⟨"assistant", py_strip q⟩],
       .ok (some (py_strip q), false)) ∧
    (∃ pre post, interviewer_system_prompt st.role = pre ++ FIRST_QUESTION_RULE ++ post) ∧
    FIRST_QUESTION_RULE = "\"Can you introduce yourself?\"" := by
  refine ⟨?_, ?_, rfl⟩
  · have hbeq : (st.main_questions_asked == 0) = true := by simpa using h0
    simp [orchestrator_step, hbeq, interviewer_agent, chat_with_groq, hq]
  · refine ⟨INTERVIEWER_PROMPT_PRE ++ st.role ++ INTERVIEWER_PROMPT_MID1,
      INTERVIEWER_PROMPT_MID2 ++ st.role ++ INTERVIEWER_PROMPT_END, ?_⟩
    simp [interviewer_system_prompt, String.append_assoc]

/-- Witness for C7 amended at a concrete state and gateway. -/
theorem C7_first_question_via_gateway_witness :
    (init_state "Data Analyst" 3).main_questions_asked = 0 ∧
    (gw_const " Tell me about you. ").complete
        (interviewer_messages (init_state "Data Analyst" 3)
          ([] ++ [⟨"user", START_DIRECTIVE⟩])) 7 = some " Tell me about you. " ∧
    (orchestrator_step (gw_const " Tell me about you. ") (init_state "Data Analyst" 3) [] none =
      ({ init_state "Data Analyst" 3 with
           main_questions_asked := (init_state "Data Analyst" 3).main_questions_asked + 1,
           qa_pairs := (init_state "Data Analyst" 3).qa_pairs ++
             [⟨py_strip " Tell me about you. ", ""⟩] },
       [] ++ [⟨"user", START_DIRECTIVE⟩, ⟨"assistant", py_strip " Tell me about you. "⟩],
       .ok (some (py_strip " Tell me about you. "), false)) ∧
     (∃ pre post, interviewer_system_prompt (init_state "Data Analyst" 3).role =
        pre ++ FIRST_QUESTION_RULE ++ post) ∧
     FIRST_QUESTION_RULE = "\"Can you introduce yourself?\"") :=
  ⟨rfl, rfl, C7_first_question_via_gateway (gw_const " Tell me about you. ")
    (init_state "Data Analyst" 3) [] " Tell me about you. " rfl rfl⟩

/-- C6 counterexample: the HTTP answer path has no hesitation guard.
With one pending question, budget 5, one main question asked, and a
gateway that answers the follow-up decision with the sentinel and then
produces a next question, submitting `""` advances
`main_questions_asked` from 1 to 2. -/
theorem C6_cex_empty_answer_advances :
    (⟨"Software Engineer", 5, 1, [⟨"Q1", ""⟩]⟩ : InterviewState).main_questions_asked = 1 ∧
    (orchestrator_step gw_sentinel ⟨"Software Engineer", 5, 1, [⟨"Q1", ""⟩]⟩
        [⟨"user", START_DIRECTIVE⟩, ⟨"assistant", "Q1"⟩]
        (some "")).1.main_questions_asked = 2 ∧
    (answer_endpoint gw_sentinel
        ⟨⟨"Software Engineer", 5, 1, [⟨"Q1", ""⟩]⟩,
         [⟨"user", START_DIRECTIVE⟩, ⟨"assistant", "Q1"⟩], false⟩
        "").1.state.main_questions_asked = 2 := by
  exact ⟨rfl, rfl, rfl⟩

/-- C6 amended: in the console flow, submitting `""` is classified as
hesitant and enters the escalation path (stage 1 re-engagement) without
being captured as the answer — and the collection loop never touches the
interview state at all.  The HTTP answer endpoint, however, has no such
guard: it forwards `""` directly to `orchestrator_step`, which records
it and may advance `main_questions_asked`. -/
theorem C6_empty_answer_console_vs_endpoint (gw : Gateway) (q : String)
    (hist : List Msg) (inputs : List String) :
    is_hesitation (some "") = true ∧
    collect_answer gw (some q) hist 0 ("" :: inputs) =
      (let o := collect_answer gw (some q) hist 1 inputs
       { o with emitted := timeout_agent gw :: o.emitted }) ∧
    (∀ sd : Session, sd.finished = false →
      (answer_endpoint gw sd "").1.state =
        (orchestrator_step gw sd.state sd.history (some "")).1) := by
  refine ⟨rfl, ?_, ?_⟩
  · have h1 : py_lower (py_strip "") = "" := rfl
    have h4 : is_hesitation (some "") = true := rfl
    simp only [collect_answer, h1, h4]
    rw [if_neg (by decide : ¬ (EXIT_WORDS.contains "" = true)),
        if_neg (by decide : ¬ (POSITIVE_SHORTS.contains "" = true))]
    simp
  · intro sd hfin
    rcases horch : orchestrator_step gw sd.state sd.history (some "") with ⟨a, b, r⟩
    rcases r with e | m <;> simp [answer_endpoint, hfin, horch]

/-- Witness for C6 amended at concrete inputs, with the endpoint
conjunct discharged at a concrete unfinished session. -/
theorem C6_empty_answer_console_vs_endpoint_witness :
    is_hesitation (some "") = true ∧
    collect_answer gw_fail (some "Q1") [] 0 ("" :: []) =
      (let o := collect_answer gw_fail (some "Q1") [] 1 []
       { o with emitted := timeout_agent gw_fail :: o.emitted }) ∧
    (∀ sd : Session, sd.finished = false →
      (answer_endpoint gw_fail sd "").1.state =
        (orchestrator_step gw_fail sd.state sd.history (some "")).1) ∧
    (⟨⟨"SE", 5, 1, [⟨"Q1", ""⟩]⟩, [], false⟩ : Session).finished = false ∧
    (answer_endpoint gw_fail ⟨⟨"SE", 5, 1, [⟨"Q1", ""⟩]⟩, [], false⟩ "").1.state =
      (orchestrator_step gw_fail ⟨"SE", 5, 1, [⟨"Q1", ""⟩]⟩ [] (some "")).1 :=
  ⟨(C6_empty_answer_console_vs_endpoint gw_fail "Q1" [] []).1,
   (C6_empty_answer_console_vs_endpoint gw_fail "Q1" [] []).2.1,
   (C6_empty_answer_console_vs_endpoint gw_fail "Q1" [] []).2.2,
   rfl,
   (C6_empty_answer_console_vs_endpoint gw_fail "Q1" [] []).2.2
     ⟨⟨"SE", 5, 1, [⟨"Q1", ""⟩]⟩, [], false⟩ rfl⟩

lemma collect_answer_hesitant_step (gw : Gateway) (cq : Option String)
    (hist : List Msg) (count : Nat) (u : String) (rest : List String)
    (h : is_hesitation (some u) = true) :
    collect_answer gw cq hist count (u :: rest) =
      (let c := count + 1
       if c == 1 then
         let o := collect_answer gw cq hist c rest
         { o with emitted := timeout_agent gw :: o.emitted }
       else if c == 2 then
         let m := supportive_repeat_text
           (match cq with
            | none => "Can you elaborate?"
            | some q => if q == "" then "Can you elaborate?" else q)
         let o := collect_answer gw cq (hist ++ [⟨"assistant", m⟩]) c rest
         { o with emitted := m :: o.emitted }
       else ⟨false, some SKIP_MARKER, [SKIP_MSG], hist, c⟩) := by
  have ht : hesitant_text (py_lower (py_strip u)) = true := by
    simpa [is_hesitation] using h
  have hexit := hesitant_text_not_exit _ ht
  have hpos := hesitant_text_not_positive _ ht
  simp only [collect_answer]
  rw [if_neg (by simpa using hexit), if_neg (by simpa using hpos), if_pos (by simp [h])]

/-- C5 counterexample: for the reachable pending question with empty
text, the stage-2 message is not the fixed supportive phrase followed by
the exact original question text verbatim — the code substitutes the
fallback text `"Can you elaborate?"` instead
(`current_question or "Can you elaborate?"`). -/
theorem C5_cex_empty_question_fallback_text :
    is_hesitation (some "um") = true ∧
    is_hesitation (some "uh") = true ∧
    collect_answer gw_fail (some "") [] 0 ["um", "uh"] =
      ⟨false, none,
       [timeout_agent gw_fail, supportive_repeat_text "Can you elaborate?"],
       [⟨"assistant", supportive_repeat_text "Can you elaborate?"⟩], 2⟩ ∧
    supportive_repeat_text "Can you elaborate?" ≠
      "No problem, let me repeat the question so you can answer comfortably:\n" ++ "" := by
  refine ⟨rfl, rfl, ?_, by decide⟩
  rfl

/-- C5 amended: for every pending question, three consecutive hesitant
utterances resolve through exactly three stages, in order: after one
hesitant input only the re-engagement message has been emitted and no
answer captured; after two, additionally the supportive repeat — the
fixed supportive phrase followed by the repeated text, also appended to
history as an assistant turn — and still no answer; the third
terminates the loop with the fixed skip marker `"No response / skipped"`
as the captured answer.  The repeated text is the exact original
question text verbatim when that text is nonempty, and the substituted
fallback `"Can you elaborate?"` when the pending question text is
empty. -/
theorem C5_three_stage_escalation (gw : Gateway) (q : String) (hist : List Msg)
    (u1 u2 u3 : String)
    (h1 : is_hesitation (some u1) = true)
    (h2 : is_hesitation (some u2) = true)
    (h3 : is_hesitation (some u3) = true) :
    collect_answer gw (some q) hist 0 [u1] =
      ⟨false, none, [timeout_agent gw], hist, 1⟩ ∧
    collect_answer gw (some q) hist 0 [u1, u2] =
      ⟨false, none,
       [timeout_agent gw,
        supportive_repeat_text (if q == "" then "Can you elaborate?" else q)],
       hist ++ [⟨"assistant",
         supportive_repeat_text (if q == "" then "Can you elaborate?" else q)⟩], 2⟩ ∧
    collect_answer gw (some q) hist 0 [u1, u2, u3] =
      ⟨false, some SKIP_MARKER,
       [timeout_agent gw,
        supportive_repeat_text (if q == "" then "Can you elaborate?" else q), SKIP_MSG],
       hist ++ [⟨"assistant",
         supportive_repeat_text (if q == "" then "Can you elaborate?" else q)⟩], 3⟩ ∧
    (q ≠ "" → (if q == "" then "Can you elaborate?" else q) = q) ∧
    (q = "" → (if q == "" then "Can you elaborate?" else q) = "Can you elaborate?") ∧
    supportive_repeat_text (if q == "" then "Can you elaborate?" else q) =
      "No problem, let me repeat the question so you can answer comfortably:\n" ++
        (if q == "" then "Can you elaborate?" else q) ∧
    SKIP_MARKER = "No response / skipped" := by
  refine ⟨?_, ?_, ?_, fun h => by simp [h], fun h => by simp [h], rfl, rfl⟩
  · rw [collect_answer_hesitant_step gw (some q) hist 0 u1 [] h1]
    simp [collect_answer]
  · have s1 : collect_answer gw (some q) hist 0 [u1, u2] =
        (let o := collect_answer gw (some q) hist 1 [u2]
         { o with emitted := timeout_agent gw :: o.emitted }) := by
      rw [collect_answer_hesitant_step gw (some q) hist 0 u1 [u2] h1]; simp
    have s2 : collect_answer gw (some q) hist 1 [u2] =
        (let o := collect_answer gw (some q)
           (hist ++ [⟨"assistant",
             supportive_repeat_text (if q == "" then "Can you elaborate?" else q)⟩]) 2 []
         { o with emitted :=
             supportive_repeat_text (if q == "" then "Can you elaborate?" else q) ::
               o.emitted }) := by
      rw [collect_answer_hesitant_step gw (some q) hist 1 u2 [] h2]; simp
    have s3 : ∀ H : List Msg, collect_answer gw (some q) H 2 [] =
        ⟨false, none, [], H, 2⟩ := fun _ => rfl
    simp only [s1, s2, s3]
  · have s1 : collect_answer gw (some q) hist 0 [u1, u2, u3] =
        (let o := collect_answer gw (some q) hist 1 [u2, u3]
         { o with emitted := timeout_agent gw :: o.emitted }) := by
      rw [collect_answer_hesitant_step gw (some q) hist 0 u1 [u2, u3] h1]; simp
    have s2 : collect_answer gw (some q) hist 1 [u2, u3] =
        (let o := collect_answer gw (some q)
           (hist ++ [⟨"assistant",
             supportive_repeat_text (if q == "" then "Can you elaborate?" else q)⟩]) 2 [u3]
         { o with emitted :=
             supportive_repeat_text (if q == "" then "Can you elaborate?" else q) ::
               o.emitted }) := by
      rw [collect_answer_hesitant_step gw (some q) hist 1 u2 [u3] h2]; simp
    have s3 : ∀ H : List Msg, collect_answer gw (some q) H 2 [u3] =
        ⟨false, some SKIP_MARKER, [SKIP_MSG], H, 3⟩ := by
      intro H
      rw [collect_answer_hesitant_step gw (some q) H 2 u3 [] h3]
      simp
    simp only [s1, s2, s3]

/-- Witness for C5 amended at concrete hesitant inputs and a concrete
gateway, with a nonempty pending question (the repeated text reduces to
the question itself). -/
theorem C5_three_stage_escalation_witness :
    is_hesitation (some "um") = true ∧
    is_hesitation (some "") = true ∧
    is_hesitation (some "...") = true ∧
    (collect_answer (gw_const "Are you there?") (some "Tell me about a project.") [] 0 ["um"] =
       ⟨false, none, [timeout_agent (gw_const "Are you there?")], [], 1⟩ ∧
     collect_answer (gw_const "Are you there?") (some "Tell me about a project.") [] 0 ["um", ""] =
       ⟨false, none,
        [timeout_agent (gw_const "Are you there?"),
         supportive_repeat_text "Tell me about a project."],
        [] ++ [⟨"assistant", supportive_repeat_text "Tell me about a project."⟩], 2⟩ ∧
     collect_answer (gw_const "Are you there?") (some "Tell me about a project.") [] 0 ["um", "", "..."] =
       ⟨false, some SKIP_MARKER,
        [timeout_agent (gw_const "Are you there?"),
         supportive_repeat_text "Tell me about a project.", SKIP_MSG],
        [] ++ [⟨"assistant", supportive_repeat_text "Tell me about a project."⟩], 3⟩ ∧
     (("Tell me about a project." : String) ≠ "" →
       ("Tell me about a project." : String) = "Tell me about a project.") ∧
     (("Tell me about a project." : String) = "" →
       ("Tell me about a project." : String) = "Can you elaborate?") ∧
     supportive_repeat_text "Tell me about a project." =
       "No problem, let me repeat the question so you can answer comfortably:\n" ++
         "Tell me about a project." ∧
     SKIP_MARKER = "No response / skipped") :=
  ⟨rfl, rfl, rfl,
   C5_three_stage_escalation (gw_const "Are you there?") "Tell me about a project." []
     "um" "" "..." rfl rfl rfl⟩

/-- C8: given the follow-up gateway call of an answer step returns `r`,
the orchestrator asks a follow-up — appends `r` to history and to
`qa_pairs` with an empty answer, emits it, leaves
`main_questions_asked` unchanged, and reports not finished — if and only
if `r` is not the exact sentinel string `"NONE"` (no further local
check is applied to `r`). -/
theorem C8_followup_sentinel_iff (gw : Gateway) (st : InterviewState) (hist : List Msg)
    (ans : String) (last : QA) (r : String)
    (hlast : st.qa_pairs.getLast? = some last)
    (hr : followup_agent gw last.question ans
        (((set_last_answer st.qa_pairs ans).filter (fun qa => qa.question != "")).map QA.question)
        = .ok r) :
    (orchestrator_step gw st hist (some ans) =
       ({ st with qa_pairs := set_last_answer st.qa_pairs ans ++ [⟨r, ""⟩] },
        hist ++ [⟨"user", ans⟩, ⟨"assistant", r⟩],
        .ok (some r, false)) ∧
     ({ st with qa_pairs := set_last_answer st.qa_pairs ans ++ [⟨r, ""⟩] } : InterviewState).main_questions_asked
        = st.main_questions_asked)
    ↔ r ≠ "NONE" := by
  constructor
  · rintro ⟨heq, -⟩ hrn
    subst hrn
    by_cases hge : st.main_questions_asked ≥ st.max_questions
    · have hred : orchestrator_step gw st hist (some ans) =
          ({ st with qa_pairs := set_last_answer st.qa_pairs ans },
           hist ++ [⟨"user", ans⟩], .ok (none, true)) := by
        simp [orchestrator_step, hlast, hr, hge]
      rw [hred] at heq
      exact absurd (congrArg (fun p => p.2.2) heq) (by simp)
    · cases hint : interviewer_agent gw { st with qa_pairs := set_last_answer st.qa_pairs ans }
          (hist ++ [⟨"user", ans⟩]) with
      | error e2 =>
        have hred : orchestrator_step gw st hist (some ans) =
            ({ st with qa_pairs := set_last_answer st.qa_pairs ans },
             hist ++ [⟨"user", ans⟩], .error e2) := by
          simp [orchestrator_step, hlast, hr, hge, hint]
        rw [hred] at heq
        exact absurd (congrArg (fun p => p.2.2) heq) (by simp)
      | ok q =>
        have hred : orchestrator_step gw st hist (some ans) =
            ({ st with main_questions_asked := st.main_questions_asked + 1,
                       qa_pairs := set_last_answer st.qa_pairs ans ++ [⟨q, ""⟩] },
             hist ++ [⟨"user", ans⟩, ⟨"assistant", q⟩],
             .ok (some q, false)) := by
          simp [orchestrator_step, hlast, hr, hge, hint]
        rw [hred] at heq
        have hcounter := congrArg (fun p => p.1.main_questions_asked) heq
        simp at hcounter
  · intro hrn
    have hnfb : (r != "NONE") = true := by simpa using hrn
    constructor
    · simp [orchestrator_step, hlast, hr, hnfb]
    · rfl

/-- Witness for C8 with a gateway whose follow-up reply is `"F1"`. -/
theorem C8_followup_sentinel_iff_witness :
    ([⟨"Q1", ""⟩] : List QA).getLast? = some ⟨"Q1", ""⟩ ∧
    followup_agent (gw_const "F1") (QA.mk "Q1" "").question "I used Redis."
        (((set_last_answer [⟨"Q1", ""⟩] "I used Redis.").filter (fun qa => qa.question != "")).map QA.question)
      = .ok "F1" ∧
    ((orchestrator_step (gw_const "F1") ⟨"SE", 5, 1, [⟨"Q1", ""⟩]⟩
        [⟨"assistant", "Q1"⟩] (some "I used Redis.") =
        (⟨"SE", 5, 1, [⟨"Q1", "I used Redis."⟩, ⟨"F1", ""⟩]⟩,
         [⟨"assistant", "Q1"⟩, ⟨"user", "I used Redis."⟩, ⟨"assistant", "F1"⟩],
         .ok (some "F1", false)) ∧
      (⟨"SE", 5, 1, [⟨"Q1", "I used Redis."⟩, ⟨"F1", ""⟩]⟩ : InterviewState).main_questions_asked =
        (⟨"SE", 5, 1, [⟨"Q1", ""⟩]⟩ : InterviewState).main_questions_asked)
     ↔ ("F1" : String) ≠ "NONE") :=
  ⟨rfl, rfl,
   C8_followup_sentinel_iff (gw_const "F1") ⟨"SE", 5, 1, [⟨"Q1", ""⟩]⟩
     [⟨"assistant", "Q1"⟩] "I used Redis." ⟨"Q1", ""⟩ "F1" rfl rfl⟩

/-- C1: for budgets ≥ 1, `main_questions_asked` starts at 0, is
non-decreasing across `orchestrator_step` calls, never exceeds
`max_questions` (which the step never changes), and changes only by
being incremented together with the emission of a freshly appended main
question — an increment that happens only from a state strictly below
the budget. -/
theorem C1_budget_monotone_invariant (gw : Gateway) (st : InterviewState)
    (hist : List Msg) (ua : Option String)
    (hb : 1 ≤ st.max_questions)
    (hle : st.main_questions_asked ≤ st.max_questions) :
    (∀ role m, (init_state role m).main_questions_asked = 0) ∧
    st.main_questions_asked ≤ (orchestrator_step gw st hist ua).1.main_questions_asked ∧
    (orchestrator_step gw st hist ua).1.main_questions_asked ≤ st.max_questions ∧
    (orchestrator_step gw st hist ua).1.max_questions = st.max_questions ∧
    ((orchestrator_step gw st hist ua).1.main_questions_asked ≠ st.main_questions_asked →
      st.main_questions_asked < st.max_questions ∧
      (orchestrator_step gw st hist ua).1.main_questions_asked = st.main_questions_asked + 1 ∧
      ∃ q, (orchestrator_step gw st hist ua).2.2 = .ok (some q, false) ∧
        (orchestrator_step gw st hist ua).1.qa_pairs.getLast? = some ⟨q, ""⟩) := by
  rcases ua with _ | ans
  · -- user_answer = None
    by_cases h0 : st.main_questions_asked = 0
    · have hbeq : (st.main_questions_asked == 0) = true := by simpa using h0
      cases hint : interviewer_agent gw st (hist ++ [⟨"user", START_DIRECTIVE⟩]) with
      | error e2 =>
        have hred : orchestrator_step gw st hist none =
            (st, hist ++ [⟨"user", START_DIRECTIVE⟩], .error e2) := by
          simp [orchestrator_step, hbeq, hint]
        rw [hred]
        exact ⟨fun r m => rfl, le_refl _, hle, rfl, fun hne => absurd rfl hne⟩
      | ok q =>
        have hred : orchestrator_step gw st hist none =
            ({ st with main_questions_asked := st.main_questions_asked + 1,
                       qa_pairs := st.qa_pairs ++ [⟨q, ""⟩] },
             hist ++ [⟨"user", START_DIRECTIVE⟩, ⟨"assistant", q⟩],
             .ok (some q, false)) := by
          simp [orchestrator_step, hbeq, hint]
        rw [hred]
        refine ⟨fun r m => rfl,
          (by omega : st.main_questions_asked ≤ st.main_questions_asked + 1),
          (by omega : st.main_questions_asked + 1 ≤ st.max_questions),
          rfl,
          fun hne => ⟨by omega, rfl, q, rfl, ?_⟩⟩
        exact List.getLast?_concat _
    · have hbeq : (st.main_questions_asked == 0) = false := by simpa using h0
      have hred : orchestrator_step gw st hist none = (st, hist, .ok (none, true)) := by
        simp [orchestrator_step, hbeq]
      rw [hred]
      exact ⟨fun r m => rfl, le_refl _, hle, rfl, fun hne => absurd rfl hne⟩
  · -- user_answer = Some ans
    cases hql : st.qa_pairs.getLast? with
    | none =>
      have hred : orchestrator_step gw st hist (some ans) =
          (st, hist, .error .indexError) := by
        simp [orchestrator_step, hql]
      rw [hred]
      exact ⟨fun r m => rfl, le_refl _, hle, rfl, fun hne => absurd rfl hne⟩
    | some last =>
      cases hfa : followup_agent gw last.question ans
          (((set_last_answer st.qa_pairs ans).filter (fun qa => qa.question != "")).map QA.question) with
      | error e2 =>
        have hred : orchestrator_step gw st hist (some ans) =
            ({ st with qa_pairs := set_last_answer st.qa_pairs ans },
             hist ++ [⟨"user", ans⟩], .error e2) := by
          simp [orchestrator_step, hql, hfa]
        rw [hred]
        exact ⟨fun r m => rfl, le_refl _, hle, rfl, fun hne => absurd rfl hne⟩
      | ok f =>
        by_cases hnf : f = "NONE"
        · subst hnf
          by_cases hge : st.main_questions_asked ≥ st.max_questions
          · have hred : orchestrator_step gw st hist (some ans) =
                ({ st with qa_pairs := set_last_answer st.qa_pairs ans },
                 hist ++ [⟨"user", ans⟩], .ok (none, true)) := by
              simp [orchestrator_step, hql, hfa, hge]
            rw [hred]
            exact ⟨fun r m => rfl, le_refl _, hle, rfl, fun hne => absurd rfl hne⟩
          · cases hint : interviewer_agent gw
                { st with qa_pairs := set_last_answer st.qa_pairs ans }
                (hist ++ [⟨"user", ans⟩]) with
            | error e2 =>
              have hred : orchestrator_step gw st hist (some ans) =
                  ({ st with qa_pairs := set_last_answer st.qa_pairs ans },
                   hist ++ [⟨"user", ans⟩], .error e2) := by
                simp [orchestrator_step, hql, hfa, hge, hint]
              rw [hred]
              exact ⟨fun r m => rfl, le_refl _, hle, rfl, fun hne => absurd rfl hne⟩
            | ok q =>
              have hred : orchestrator_step gw st hist (some ans) =
                  ({ st with main_questions_asked := st.main_questions_asked + 1,
                             qa_pairs := set_last_answer st.qa_pairs ans ++ [⟨q, ""⟩] },
                   hist ++ [⟨"user", ans⟩, ⟨"assistant", q⟩],
                   .ok (some q, false)) := by
                simp [orchestrator_step, hql, hfa, hge, hint]
              rw [hred]
              refine ⟨fun r m => rfl,
                (by omega : st.main_questions_asked ≤ st.main_questions_asked + 1),
                (by omega : st.main_questions_asked + 1 ≤ st.max_questions),
                rfl,
                fun hne => ⟨by omega, rfl, q, rfl, ?_⟩⟩
              exact List.getLast?_concat _
        · have hnfb : (f != "NONE") = true := by simpa using hnf
          have hred : orchestrator_step gw st hist (some ans) =
              ({ st with qa_pairs := set_last_answer st.qa_pairs ans ++ [⟨f, ""⟩] },
               hist ++ [⟨"user", ans⟩, ⟨"assistant", f⟩],
               .ok (some f, false)) := by
            simp [orchestrator_step, hql, hfa, hnfb]
          rw [hred]
          exact ⟨fun r m => rfl, le_refl _, hle, rfl, fun hne => absurd rfl hne⟩

/-- Witness for C1 on a fresh session with budget 5 and an answering
gateway. -/
theorem C1_budget_monotone_invariant_witness :
    1 ≤ (init_state "Software Engineer" 5).max_questions ∧
    (init_state "Software Engineer" 5).main_questions_asked ≤
      (init_state "Software Engineer" 5).max_questions ∧
    ((∀ role m, (init_state role m).main_questions_asked = 0) ∧
     (init_state "Software Engineer" 5).main_questions_asked ≤
       (orchestrator_step (gw_const "Next question?")
         (init_state "Software Engineer" 5) [] none).1.main_questions_asked ∧
     (orchestrator_step (gw_const "Next question?")
       (init_state "Software Engineer" 5) [] none).1.main_questions_asked ≤
       (init_state "Software Engineer" 5).max_questions ∧
     (orchestrator_step (gw_const "Next question?")
       (init_state "Software Engineer" 5) [] none).1.max_questions =
       (init_state "Software Engineer" 5).max_questions ∧
     ((orchestrator_step (gw_const "Next question?")
         (init_state "Software Engineer" 5) [] none).1.main_questions_asked ≠
         (init_state "Software Engineer" 5).main_questions_asked →
       (init_state "Software Engineer" 5).main_questions_asked <
         (init_state "Software Engineer" 5).max_questions ∧
       (orchestrator_step (gw_const "Next question?")
         (init_state "Software Engineer" 5) [] none).1.main_questions_asked =
         (init_state "Software Engineer" 5).main_questions_asked + 1 ∧
       ∃ q, (orchestrator_step (gw_const "Next question?")
           (init_state "Software Engineer" 5) [] none).2.2 = .ok (some q, false) ∧
         (orchestrator_step (gw_const "Next question?")
           (init_state "Software Engineer" 5) [] none).1.qa_pairs.getLast? = some ⟨q, ""⟩)) :=
  ⟨by decide, by decide,
   C1_budget_monotone_invariant (gw_const "Next question?")
     (init_state "Software Engineer" 5) [] none (by decide) (by decide)⟩
